import Mathlib

/-!
Verification of the land-classification repository's AGB (above-ground
biomass) pipeline and land-cover classification endpoint.

The pipeline builds lazy raster expressions and evaluates them remotely;
a raster band is modelled per pixel as a rational value, a region as the
list of its unmasked pixel samples, and each orchestration function of
the source as a pure Lean function over those.  JavaScript numerics are
modelled over ℚ: `Math.round` is floor(x + 1/2) (JS rounds halves toward
positive infinity), `Math.floor` of an integer quotient is `Int.fdiv`,
and `toFixed(2)` on the nonnegative values it is applied to here agrees
with `Math.round(x * 100) / 100`.
-/

namespace LandClassification

/-- JavaScript `Math.round`: round half toward positive infinity. -/
def jsRound (x : ℚ) : ℤ := ⌊x + 1 / 2⌋

/-- Rounding to two decimal places, `Math.round(x * 100) / 100`; also models
`parseFloat(x.toFixed(2))` on the nonnegative statistics it is applied to. -/
def jsRound2 (x : ℚ) : ℚ := (jsRound (x * 100) : ℚ) / 100

/-- Earth Engine `image.clamp(lo, hi)` applied per pixel. -/
def clampQ (lo hi x : ℚ) : ℚ := max lo (min x hi)

/-- Regression coefficients structure, source `REGRESSION_COEFFICIENTS`. -/
structure RegressionCoefficients where
  intercept : ℚ
  ndvi : ℚ
  evi : ℚ
  vh : ℚ
  rvi : ℚ
  canopyHeight : ℚ

/-- Source constant `REGRESSION_COEFFICIENTS` (route.ts lines 25-32). -/
def REGRESSION_COEFFICIENTS : RegressionCoefficients :=
  { intercept := -150, ndvi := 200, evi := 150, vh := -20, rvi := 50, canopyHeight := 15 }

/-- One pixel of the Sentinel-2 composite after index computation. -/
structure S2CompositePixel where
  ndvi : ℚ
  evi : ℚ
  lai : ℚ

/-- One pixel of the Sentinel-1 composite after RVI computation. -/
structure S1CompositePixel where
  vv : ℚ
  vh : ℚ
  rvi : ℚ

/-- One pixel of the harmonized image.  The canopy-height band is optional:
`harmonizeResolution` adds it only when GEDI coverage exists, so its absence
is structural (`none`), never a numeric placeholder. -/
structure HarmonizedPixel where
  ndvi : ℚ
  evi : ℚ
  lai : ℚ
  vv : ℚ
  vh : ℚ
  rvi : ℚ
  canopyHeight : Option ℚ

/-- Source `harmonizeResolution` (route.ts lines 198-227), per pixel: combines
the S2 bands with the resampled S1 bands and appends the GEDI canopy-height
band only when `hasCanopyHeight` holds and a GEDI image exists. -/
def harmonizeResolution (s2 : S2CompositePixel) (s1 : S1CompositePixel)
    (gediImage : Option ℚ) (hasCanopyHeight : Bool) : HarmonizedPixel :=
  { ndvi := s2.ndvi, evi := s2.evi, lai := s2.lai,
    vv := s1.vv, vh := s1.vh, rvi := s1.rvi,
    canopyHeight := if hasCanopyHeight && gediImage.isSome then gediImage else none }

/-- Regression value before clamping, source `calculateAGB` (route.ts lines
232-276): the full five-term expression when `hasCanopyHeight`, else the
reduced four-term expression.  The full branch is only ever invoked on images
carrying the canopy-height band; `getD 0` totalizes the band read. -/
def calculateAGBPre (hasCanopyHeight : Bool) (p : HarmonizedPixel) : ℚ :=
  if hasCanopyHeight then
    REGRESSION_COEFFICIENTS.intercept
      + REGRESSION_COEFFICIENTS.ndvi * p.ndvi
      + REGRESSION_COEFFICIENTS.evi * p.evi
      + REGRESSION_COEFFICIENTS.vh * p.vh
      + REGRESSION_COEFFICIENTS.rvi * p.rvi
      + REGRESSION_COEFFICIENTS.canopyHeight * (p.canopyHeight.getD 0)
  else
    REGRESSION_COEFFICIENTS.intercept
      + REGRESSION_COEFFICIENTS.ndvi * p.ndvi
      + REGRESSION_COEFFICIENTS.evi * p.evi
      + REGRESSION_COEFFICIENTS.vh * p.vh
      + REGRESSION_COEFFICIENTS.rvi * p.rvi

/-- Source `calculateAGB`: regression then `.rename('AGB').clamp(0, 500)`. -/
def calculateAGB (hasCanopyHeight : Bool) (p : HarmonizedPixel) : ℚ :=
  clampQ 0 500 (calculateAGBPre hasCanopyHeight p)

/-- Mean of a list of pixel samples (the region reducer's mean). -/
def listMean (l : List ℚ) : ℚ := l.sum / l.length

/-- Minimum pixel sample of a region, `none` when no pixel contributes. -/
def listMin : List ℚ → Option ℚ
  | [] => none
  | a :: l => some (l.foldl min a)

/-- Maximum pixel sample of a region, `none` when no pixel contributes. -/
def listMax : List ℚ → Option ℚ
  | [] => none
  | a :: l => some (l.foldl max a)

/-- Aggregates returned by the remote `reduceRegion` evaluation: each field is
`none` when no unmasked pixel contributed (an empty composite or a fully
masked region), mirroring the platform's null aggregates.  The reducer also
computes a standard deviation, which no claim constrains and which is not
rational-valued, so it is not modelled. -/
structure RegionAggregates where
  mean : Option ℚ
  min : Option ℚ
  max : Option ℚ

/-- Region reduction over the list of unmasked pixel samples: masked or
missing pixels are simply absent from the list, contributing nothing. -/
def reduceRegion (pixels : List ℚ) : RegionAggregates :=
  { mean := if pixels.isEmpty then none else some (listMean pixels),
    min := listMin pixels,
    max := listMax pixels }

/-- Statistics object built by the source's `calculateImageStatistics`. -/
structure BandStatistics where
  mean : ℚ
  min : ℚ
  max : ℚ

/-- Source `calculateImageStatistics` (route.ts lines 281-314): reads each
aggregate from the evaluated result with the JavaScript fallback
`result[...] || 0`, so an absent aggregate surfaces as the number 0. -/
def calculateImageStatistics (pixels : List ℚ) : BandStatistics :=
  let r := reduceRegion pixels
  { mean := r.mean.getD 0, min := r.min.getD 0, max := r.max.getD 0 }

/-- AGB statistics as serialized in the response: `parseFloat(v.toFixed(2))`
applied to each statistic (route.ts lines 540-542). -/
def reportedAGBStats (pixels : List ℚ) : BandStatistics :=
  let s := calculateImageStatistics pixels
  { mean := jsRound2 s.mean, min := jsRound2 s.min, max := jsRound2 s.max }

/-- Outcome of the GEDI fetch and size evaluation in `calculateAGBForDate`
(route.ts lines 425-450): `fetchOk` is false when the try-block threw, and
`size` is the evaluated footprint count when it did not. -/
structure GediOutcome where
  fetchOk : Bool
  size : ℕ

/-- Source flag `hasCanopyHeight`: false on fetch failure or a zero GEDI
footprint count, true otherwise (route.ts lines 438-450). -/
def hasCanopyHeightOf (g : GediOutcome) : Bool :=
  g.fetchOk && decide (g.size ≠ 0)

/-- Source `gediFootprints` field of `dataQuality` (route.ts lines 515-522):
the collection size when `hasCanopyHeight` and the collection exists, else 0. -/
def gediFootprintsOf (g : GediOutcome) : ℕ :=
  if hasCanopyHeightOf g && g.fetchOk then g.size else 0

/-- Source `inputMetrics.canopyHeight` (route.ts lines 486-498, 578-582):
canopy-height statistics are fetched and reported only when
`hasCanopyHeight`; otherwise the field is null. -/
def canopyHeightMetricsOf (g : GediOutcome) (chStats : BandStatistics) :
    Option BandStatistics :=
  if hasCanopyHeightOf g then some chStats else none

/-- Result of a successful adaptive window search, source
`findClosestDataWindow`'s return object. -/
structure DataWindowResult where
  startDate : ℤ
  endDate : ℤ
  monthsUsed : ℕ
  deriving DecidableEq

/-- Error thrown when the adaptive window search exhausts its bound: the
source throws `No satellite data found within (maxMonthsSearch) months of
(targetDate)`, carrying both values. -/
structure DataUnavailableError where
  targetDate : ℤ
  maxMonthsSearch : ℕ
  deriving DecidableEq

/-- Synthetic scene calendar used to exercise the adaptive search: scenes
exist only in windows reaching back at least 14 days. -/
def demoSceneCount : ℤ → ℤ → ℕ := fun s _ => if s ≤ -14 then 1 else 0

/-- Availability test of one candidate window: the Sentinel-2 collection
filtered to the polygon, the window and cloud cover below 30 percent has at
least one scene.  `sceneCount startDate endDate` abstracts the remote
collection's evaluated size; dates are day numbers. -/
def windowAvailable (sceneCount : ℤ → ℤ → ℕ) (target : ℤ) (w : ℕ) : Bool :=
  decide (0 < sceneCount (target - 7 * w) (target + 7 * w))

/-- The source's for-loop with early return, `fuel` counting the remaining
iterations: tries `w`, then `w + 1`, and so on, returning the first week
count whose window is available. -/
def searchLoop (avail : ℕ → Bool) : ℕ → ℕ → Option ℕ
  | _, 0 => none
  | w, fuel + 1 => if avail w then some w else searchLoop avail (w + 1) fuel

/-- Source `findClosestDataWindow` (route.ts lines 344-386): for weeksWindow
from 1 to `maxMonthsSearch * 4`, test the symmetric window of ±(7 * w) days
around the target; on the first available window return it with
`monthsUsed = ceil(w / 4)`, and after exhausting the bound throw. -/
def findClosestDataWindow (sceneCount : ℤ → ℤ → ℕ) (target : ℤ)
    (maxMonthsSearch : ℕ) : Except DataUnavailableError DataWindowResult :=
  match searchLoop (windowAvailable sceneCount target) 1 (maxMonthsSearch * 4) with
  | some w => .ok { startDate := target - 7 * w, endDate := target + 7 * w,
                    monthsUsed := (w + 3) / 4 }
  | none => .error { targetDate := target, maxMonthsSearch := maxMonthsSearch }

/-- Source `agbChange` (route.ts line 621): the absolute change of mean AGB. -/
def agbChangeOf (startMean endMean : ℚ) : ℚ := endMean - startMean

/-- Source `agbChangePercent` (route.ts lines 622-624): percent change
guarded by `startAGB.meanAGB > 0`. -/
def agbChangePercentOf (startMean endMean : ℚ) : ℚ :=
  if 0 < startMean then agbChangeOf startMean endMean / startMean * 100 else 0

/-- Source `daysDifference` (route.ts line 631): `Math.floor` of the
millisecond difference divided by 86400000. -/
def daysDifferenceOf (startMs endMs : ℤ) : ℤ :=
  Int.fdiv (endMs - startMs) 86400000

/-- Source `yearsDifference` (route.ts line 632). -/
def yearsDifferenceOf (startMs endMs : ℤ) : ℚ :=
  (daysDifferenceOf startMs endMs : ℚ) / 365.25

/-- Source `annualAGBChange` (route.ts line 633), guarded by
`yearsDifference > 0`. -/
def annualAGBChangeOf (change : ℚ) (startMs endMs : ℤ) : ℚ :=
  if 0 < yearsDifferenceOf startMs endMs then
    change / yearsDifferenceOf startMs endMs
  else 0

/-- One group of the grouped area reduction consumed by
`processAreaStatistics`: a class value and its summed pixel area in square
meters (`group.class` and `group.sum` in the source). -/
structure AreaGroup where
  classValue : ℤ
  sum : ℚ

/-- One entry of the land-cover response's `areaStatistics` list. -/
structure AreaStatEntry where
  classValue : ℤ
  className : String
  areaHectares : ℚ
  areaSquareMeters : ℤ

/-- Comparator of the source's `.sort((a, b) => b.areaHectares - a.areaHectares)`:
descending by `areaHectares`. -/
def areaDescending (a b : AreaStatEntry) : Prop :=
  b.areaHectares ≤ a.areaHectares

instance : DecidableRel areaDescending :=
  fun a b => inferInstanceAs (Decidable (b.areaHectares ≤ a.areaHectares))

instance : IsTotal AreaStatEntry areaDescending :=
  ⟨fun a b => le_total b.areaHectares a.areaHectares⟩

instance : IsTrans AreaStatEntry areaDescending :=
  ⟨fun _ _ _ h1 h2 => le_trans h2 h1⟩

/-- Source `processAreaStatistics` (land-cover route, lines 382-399): with no
groups return the empty list; otherwise map each group to an entry with
`areaHectares = Math.round((sum / 10000) * 100) / 100` and
`areaSquareMeters = Math.round(sum)`, then sort descending by
`areaHectares`. -/
def processAreaStatistics (classes : ℤ → Option String)
    (stats : Option (List AreaGroup)) : List AreaStatEntry :=
  match stats with
  | none => []
  | some groups =>
    List.insertionSort areaDescending (groups.map fun g =>
      { classValue := g.classValue,
        className := (classes g.classValue).getD ("Class " ++ toString g.classValue),
        areaHectares := jsRound2 (g.sum / 10000),
        areaSquareMeters := jsRound g.sum })

/-- Request body of the land-cover classification endpoint; `none` models an
absent JSON field, so destructuring defaults apply (`year = 2021`,
`useDynamicWorld = true`). -/
structure ClassifyRequest where
  year : Option ℤ
  useDynamicWorld : Option Bool
  startDate : Option String
  endDate : Option String

/-- JavaScript truthiness of an optional string field: absent or empty is
falsy. -/
def jsTruthy : Option String → Bool
  | none => false
  | some s => !(s == "")

/-- Destructuring default `year = 2021` of the land-cover POST handler. -/
def yearOf (req : ClassifyRequest) : ℤ := req.year.getD 2021

/-- Destructuring default `useDynamicWorld = true` of the handler. -/
def useDynamicWorldOf (req : ClassifyRequest) : Bool :=
  req.useDynamicWorld.getD true

/-- Which classifier dataset the handler runs. -/
inductive LandcoverDataset
  | dynamicWorld
  | worldCover (year : ℤ)
  deriving DecidableEq

/-- Branch selection of the land-cover POST handler (lines 250 and 319-322):
the Dynamic World path runs only under
`useDynamicWorld && startDate && endDate`; otherwise the handler classifies
with ESA WorldCover for the (defaulted) year. -/
def datasetUsed (req : ClassifyRequest) : LandcoverDataset :=
  if useDynamicWorldOf req && jsTruthy req.startDate && jsTruthy req.endDate then
    .dynamicWorld
  else
    .worldCover (yearOf req)

/-- Response field `aiPowered: useDynamicWorld` (line 365): it reports the
request flag, not the dataset actually used. -/
def aiPoweredOf (req : ClassifyRequest) : Bool := useDynamicWorldOf req

/-! Helper lemmas shared by the claim theorems. -/

theorem clampQ_bounds (x : ℚ) : 0 ≤ clampQ 0 500 x ∧ clampQ 0 500 x ≤ 500 :=
  ⟨le_max_left 0 _, max_le (by norm_num) (min_le_right x 500)⟩

theorem jsRound2_bounds (x : ℚ) (h0 : 0 ≤ x) (h1 : x ≤ 500) :
    0 ≤ jsRound2 x ∧ jsRound2 x ≤ 500 := by
  unfold jsRound2 jsRound
  constructor
  · apply div_nonneg _ (by norm_num)
    exact_mod_cast Int.floor_nonneg.mpr (by linarith)
  · have h2 : ⌊x * 100 + 1 / 2⌋ ≤ ⌊(50000 : ℚ) + 1 / 2⌋ :=
      Int.floor_le_floor (by linarith)
    have h3 : ⌊(50000 : ℚ) + 1 / 2⌋ = 50000 := by
      rw [Int.floor_eq_iff]
      norm_num
    rw [div_le_iff₀ (by norm_num : (0 : ℚ) < 100)]
    have : (⌊x * 100 + 1 / 2⌋ : ℚ) ≤ 50000 := by exact_mod_cast h3 ▸ h2
    linarith

theorem list_sum_le_length_mul (l : List ℚ) (h : ∀ v ∈ l, v ≤ 500) :
    l.sum ≤ 500 * l.length := by
  induction l with
  | nil => simp
  | cons a t ih =>
    have ha := h a (by simp)
    have ht := ih fun v hv => h v (by simp [hv])
    simp only [List.sum_cons, List.length_cons]
    push_cast
    linarith

theorem listMean_bounds (l : List ℚ) (hne : l ≠ [])
    (h : ∀ v ∈ l, 0 ≤ v ∧ v ≤ 500) : 0 ≤ listMean l ∧ listMean l ≤ 500 := by
  have hlen : (0 : ℚ) < l.length := by
    exact_mod_cast List.length_pos.mpr hne
  constructor
  · exact div_nonneg (List.sum_nonneg fun v hv => (h v hv).1) (le_of_lt hlen)
  · rw [listMean, div_le_iff₀ hlen]
    have := list_sum_le_length_mul l fun v hv => (h v hv).2
    linarith

theorem foldl_min_bounds (l : List ℚ) :
    ∀ a : ℚ, 0 ≤ a → a ≤ 500 → (∀ v ∈ l, 0 ≤ v ∧ v ≤ 500) →
      0 ≤ l.foldl min a ∧ l.foldl min a ≤ 500 := by
  induction l with
  | nil => intro a h0 h1 _; exact ⟨h0, h1⟩
  | cons b t ih =>
    intro a h0 h1 h
    have hb := h b (by simp)
    simp only [List.foldl_cons]
    exact ih (min a b) (le_min h0 hb.1) (le_trans (min_le_left a b) h1)
      fun v hv => h v (by simp [hv])

theorem foldl_max_bounds (l : List ℚ) :
    ∀ a : ℚ, 0 ≤ a → a ≤ 500 → (∀ v ∈ l, 0 ≤ v ∧ v ≤ 500) →
      0 ≤ l.foldl max a ∧ l.foldl max a ≤ 500 := by
  induction l with
  | nil => intro a h0 h1 _; exact ⟨h0, h1⟩
  | cons b t ih =>
    intro a h0 h1 h
    have hb := h b (by simp)
    simp only [List.foldl_cons]
    exact ih (max a b) (le_trans h0 (le_max_left a b)) (max_le h1 hb.2)
      fun v hv => h v (by simp [hv])

theorem calculateImageStatistics_bounds (l : List ℚ)
    (h : ∀ v ∈ l, 0 ≤ v ∧ v ≤ 500) :
    (0 ≤ (calculateImageStatistics l).mean ∧ (calculateImageStatistics l).mean ≤ 500)
      ∧ (0 ≤ (calculateImageStatistics l).min ∧ (calculateImageStatistics l).min ≤ 500)
      ∧ (0 ≤ (calculateImageStatistics l).max ∧ (calculateImageStatistics l).max ≤ 500) := by
  match l with
  | [] =>
    simp [calculateImageStatistics, reduceRegion, listMin, listMax]
  | a :: t =>
    have ha := h a (by simp)
    have hmean := listMean_bounds (a :: t) (by simp) h
    have hmin := foldl_min_bounds t a ha.1 ha.2 fun v hv => h v (by simp [hv])
    have hmax := foldl_max_bounds t a ha.1 ha.2 fun v hv => h v (by simp [hv])
    simp only [calculateImageStatistics, reduceRegion, listMin, listMax,
      List.isEmpty_cons, Option.getD_some]
    exact ⟨hmean, hmin, hmax⟩

theorem reportedAGBStats_bounds (hasCH : Bool) (pixels : List HarmonizedPixel) :
    (0 ≤ (reportedAGBStats (pixels.map (calculateAGB hasCH))).mean
        ∧ (reportedAGBStats (pixels.map (calculateAGB hasCH))).mean ≤ 500)
      ∧ (0 ≤ (reportedAGBStats (pixels.map (calculateAGB hasCH))).min
        ∧ (reportedAGBStats (pixels.map (calculateAGB hasCH))).min ≤ 500)
      ∧ (0 ≤ (reportedAGBStats (pixels.map (calculateAGB hasCH))).max
        ∧ (reportedAGBStats (pixels.map (calculateAGB hasCH))).max ≤ 500) := by
  have hvals : ∀ v ∈ pixels.map (calculateAGB hasCH), 0 ≤ v ∧ v ≤ 500 := by
    intro v hv
    rcases List.mem_map.mp hv with ⟨p, _, rfl⟩
    exact clampQ_bounds _
  have hs := calculateImageStatistics_bounds _ hvals
  refine ⟨jsRound2_bounds _ hs.1.1 hs.1.2, jsRound2_bounds _ hs.2.1.1 hs.2.1.2,
    jsRound2_bounds _ hs.2.2.1 hs.2.2.2⟩

/-- C1: for every model variant and every raster of harmonized pixels, every
AGB value the pipeline produces lies in [0, 500]: each raster pixel of the
AGB layer (the clamped regression output), and hence the reported meanAGB,
minAGB and maxAGB statistics, lie in that interval. -/
theorem C1_agb_values_in_range (hasCH : Bool) (pixels : List HarmonizedPixel) :
    (∀ p ∈ pixels, 0 ≤ calculateAGB hasCH p ∧ calculateAGB hasCH p ≤ 500)
      ∧ (0 ≤ (reportedAGBStats (pixels.map (calculateAGB hasCH))).mean
        ∧ (reportedAGBStats (pixels.map (calculateAGB hasCH))).mean ≤ 500)
      ∧ (0 ≤ (reportedAGBStats (pixels.map (calculateAGB hasCH))).min
        ∧ (reportedAGBStats (pixels.map (calculateAGB hasCH))).min ≤ 500)
      ∧ (0 ≤ (reportedAGBStats (pixels.map (calculateAGB hasCH))).max
        ∧ (reportedAGBStats (pixels.map (calculateAGB hasCH))).max ≤ 500) :=
  ⟨fun _ _ => clampQ_bounds _, reportedAGBStats_bounds hasCH pixels⟩

/-- C8: the AGB regression applies exactly the fixed linear model
AGB = −150 + 200·NDVI + 150·EVI + (−20)·VH + 50·RVI + 15·CanopyHeight in the
full variant and the same equation without the CanopyHeight term in the
reduced variant, before clamping to [0, 500]; the coefficients are the
published constants. -/
theorem C8_regression_equation (ndvi evi lai vv vh rvi ch : ℚ) (opt : Option ℚ) :
    calculateAGBPre true ⟨ndvi, evi, lai, vv, vh, rvi, some ch⟩
        = -150 + 200 * ndvi + 150 * evi + (-20) * vh + 50 * rvi + 15 * ch
      ∧ calculateAGBPre false ⟨ndvi, evi, lai, vv, vh, rvi, opt⟩
        = -150 + 200 * ndvi + 150 * evi + (-20) * vh + 50 * rvi
      ∧ REGRESSION_COEFFICIENTS.intercept = -150
      ∧ REGRESSION_COEFFICIENTS.ndvi = 200
      ∧ REGRESSION_COEFFICIENTS.evi = 150
      ∧ REGRESSION_COEFFICIENTS.vh = -20
      ∧ REGRESSION_COEFFICIENTS.rvi = 50
      ∧ REGRESSION_COEFFICIENTS.canopyHeight = 15
      ∧ (∀ b p, calculateAGB b p = clampQ 0 500 (calculateAGBPre b p)) := by
  refine ⟨?_, ?_, rfl, rfl, rfl, rfl, rfl, rfl, fun _ _ => rfl⟩
  · simp [calculateAGBPre, REGRESSION_COEFFICIENTS]
  · simp [calculateAGBPre, REGRESSION_COEFFICIENTS]

/-- C6: for every pair of per-date AGB results (each a reported mean over an
AGB raster), percentChange equals absoluteChange / startMeanAGB × 100 when
startMeanAGB is nonzero, and is exactly 0 when startMeanAGB is 0, regardless
of endMeanAGB.  The source guard is `startMeanAGB > 0`, which coincides with
nonzero because reported mean AGB is never negative. -/
theorem C6_percent_change (hasCH1 hasCH2 : Bool)
    (pixels1 pixels2 : List HarmonizedPixel) :
    ((reportedAGBStats (pixels1.map (calculateAGB hasCH1))).mean ≠ 0 →
      agbChangePercentOf (reportedAGBStats (pixels1.map (calculateAGB hasCH1))).mean
          (reportedAGBStats (pixels2.map (calculateAGB hasCH2))).mean
        = agbChangeOf (reportedAGBStats (pixels1.map (calculateAGB hasCH1))).mean
            (reportedAGBStats (pixels2.map (calculateAGB hasCH2))).mean
          / (reportedAGBStats (pixels1.map (calculateAGB hasCH1))).mean * 100)
      ∧ ((reportedAGBStats (pixels1.map (calculateAGB hasCH1))).mean = 0 →
        agbChangePercentOf (reportedAGBStats (pixels1.map (calculateAGB hasCH1))).mean
          (reportedAGBStats (pixels2.map (calculateAGB hasCH2))).mean = 0) := by
  have hs := (reportedAGBStats_bounds hasCH1 pixels1).1.1
  constructor
  · intro hne
    rw [agbChangePercentOf, if_pos (lt_of_le_of_ne hs (Ne.symm hne))]
  · intro h0
    rw [agbChangePercentOf, if_neg (by rw [h0]; exact lt_irrefl 0)]

/-- C7: annualizedChange equals absoluteChange / durationYears where
durationYears = (endDate − startDate in days) / 365.25, and annualizedChange
is exactly 0 when durationYears ≤ 0. -/
theorem C7_annualized_change (change : ℚ) (startMs endMs : ℤ) :
    yearsDifferenceOf startMs endMs = (daysDifferenceOf startMs endMs : ℚ) / 365.25
      ∧ (yearsDifferenceOf startMs endMs ≤ 0 →
          annualAGBChangeOf change startMs endMs = 0)
      ∧ (0 < yearsDifferenceOf startMs endMs →
          annualAGBChangeOf change startMs endMs
            = change / yearsDifferenceOf startMs endMs) := by
  refine ⟨rfl, fun h => ?_, fun h => ?_⟩
  · rw [annualAGBChangeOf, if_neg (not_lt.mpr h)]
  · rw [annualAGBChangeOf, if_pos h]

/-- C10: when useDynamicWorld is true (or defaulted to true) but startDate or
endDate is absent, the land-cover handler classifies with the ESA WorldCover
dataset for the given year (default 2021) instead of Dynamic World, while the
response's aiPowered field still reports the value of useDynamicWorld. -/
theorem C10_worldcover_fallback (req : ClassifyRequest)
    (hudw : useDynamicWorldOf req = true)
    (habs : req.startDate = none ∨ req.endDate = none) :
    datasetUsed req = .worldCover (req.year.getD 2021) ∧ aiPoweredOf req = true := by
  have hcond : (useDynamicWorldOf req && jsTruthy req.startDate
      && jsTruthy req.endDate) = false := by
    rcases habs with h | h <;> simp [h, jsTruthy]
  exact ⟨by rw [datasetUsed, if_neg (by simp [hcond])]; rfl, hudw⟩

/-- C10 witness: a request with useDynamicWorld true, a start date, no end
date and no year is classified with WorldCover for the default year 2021
while aiPowered reports true. -/
theorem C10_worldcover_fallback_witness :
    datasetUsed ⟨none, some true, some "2024-06-01", none⟩
        = .worldCover 2021
      ∧ aiPoweredOf ⟨none, some true, some "2024-06-01", none⟩ = true :=
  C10_worldcover_fallback ⟨none, some true, some "2024-06-01", none⟩ rfl (Or.inr rfl)

theorem searchLoop_eq_some (avail : ℕ → Bool) :
    ∀ fuel w r : ℕ, searchLoop avail w fuel = some r →
      avail r = true ∧ w ≤ r ∧ r < w + fuel
        ∧ ∀ k, w ≤ k → k < r → avail k = false := by
  intro fuel
  induction fuel with
  | zero => intro w r h; simp [searchLoop] at h
  | succ n ih =>
    intro w r h
    simp only [searchLoop] at h
    by_cases hw : avail w = true
    · rw [if_pos hw] at h
      injection h with h'
      subst h'
      exact ⟨hw, le_refl w, by omega, fun k hk1 hk2 => absurd hk1 (by omega)⟩
    · have hw' : avail w = false := by revert hw; cases avail w <;> simp
      rw [if_neg hw] at h
      obtain ⟨h1, h2, h3, h4⟩ := ih (w + 1) r h
      refine ⟨h1, by omega, by omega, fun k hk1 hk2 => ?_⟩
      rcases Nat.eq_or_lt_of_le hk1 with rfl | hlt
      · exact hw'
      · exact h4 k (by omega) hk2

theorem searchLoop_eq_none (avail : ℕ → Bool) :
    ∀ fuel w : ℕ, (∀ k, w ≤ k → k < w + fuel → avail k = false) →
      searchLoop avail w fuel = none := by
  intro fuel
  induction fuel with
  | zero => intro w _; rfl
  | succ n ih =>
    intro w h
    have hw : avail w = false := h w (le_refl w) (by omega)
    simp only [searchLoop]
    rw [if_neg (by simp [hw])]
    exact ih (w + 1) fun k hk1 hk2 => h k (by omega) (by omega)

/-- C3: for every geometry (abstracted by its windowed scene count) and
target date, if no candidate window up to the maximum lookback bound has an
optical scene passing the cloud-cover threshold, the adaptive window search
fails with the DataUnavailable error carrying the target date and the bound
searched, and produces no result for that date. -/
theorem C3_window_search_failure (sceneCount : ℤ → ℤ → ℕ) (target : ℤ)
    (maxMonthsSearch : ℕ)
    (h : ∀ w : ℕ, 1 ≤ w → w ≤ maxMonthsSearch * 4 →
      sceneCount (target - 7 * w) (target + 7 * w) = 0) :
    findClosestDataWindow sceneCount target maxMonthsSearch
      = .error ⟨target, maxMonthsSearch⟩ := by
  have hnone : searchLoop (windowAvailable sceneCount target) 1
      (maxMonthsSearch * 4) = none := by
    apply searchLoop_eq_none
    intro k hk1 hk2
    simp [windowAvailable, h k hk1 (by omega)]
  rw [findClosestDataWindow, hnone]

/-- C3 witness: with no scene in any window, the search for target day 0 with
the AGB bound of 3 months fails with the error carrying the target date 0 and
the bound 3. -/
theorem C3_window_search_failure_witness :
    findClosestDataWindow (fun _ _ => 0) 0 3 = .error ⟨0, 3⟩ :=
  C3_window_search_failure (fun _ _ => 0) 0 3 fun _ _ _ => rfl

/-- C4: whenever the adaptive search succeeds it tried symmetric windows of
±1 week, ±2 weeks, and so on in strictly increasing width: the returned
window is the narrowest one (every strictly narrower candidate window is
empty), it is symmetric of half-width 7·w days around the target with w at
most maxMonthsSearch·4 weeks (so never wider than the configured bound), and
it comes with the number of months needed, ceil(w / 4), which is at most the
bound. -/
theorem C4_window_search_first_success (sceneCount : ℤ → ℤ → ℕ) (target : ℤ)
    (maxMonthsSearch : ℕ) (r : DataWindowResult)
    (h : findClosestDataWindow sceneCount target maxMonthsSearch = .ok r) :
    ∃ w : ℕ, 1 ≤ w ∧ w ≤ maxMonthsSearch * 4
      ∧ r.startDate = target - 7 * w
      ∧ r.endDate = target + 7 * w
      ∧ 0 < sceneCount (target - 7 * w) (target + 7 * w)
      ∧ (∀ v : ℕ, 1 ≤ v → v < w → sceneCount (target - 7 * v) (target + 7 * v) = 0)
      ∧ r.monthsUsed = (w + 3) / 4
      ∧ r.monthsUsed ≤ maxMonthsSearch
      ∧ r.endDate - r.startDate = 14 * w := by
  rw [findClosestDataWindow] at h
  cases hsl : searchLoop (windowAvailable sceneCount target) 1
      (maxMonthsSearch * 4) with
  | none => rw [hsl] at h; exact absurd h (by simp)
  | some w =>
    rw [hsl] at h
    injection h with h'
    obtain ⟨h1, h2, h3, h4⟩ := searchLoop_eq_some _ _ _ _ hsl
    subst h'
    refine ⟨w, h2, by omega, rfl, rfl, ?_, ?_, rfl, by simp; omega, by push_cast; ring⟩
    · exact of_decide_eq_true h1
    · intro v hv1 hv2
      have hfalse := h4 v hv1 hv2
      have hnot := of_decide_eq_false hfalse
      omega

/-- C4 witness: on the synthetic calendar where scenes appear only from the
second window on, the search run for target day 0 with bound 3 months returns
the ±2-week window, the narrower ±1-week window being empty. -/
theorem C4_window_search_first_success_witness :
    ∃ w : ℕ, 1 ≤ w ∧ w ≤ 3 * 4
      ∧ (-14 : ℤ) = 0 - 7 * w
      ∧ (14 : ℤ) = 0 + 7 * w
      ∧ 0 < demoSceneCount (0 - 7 * w) (0 + 7 * w)
      ∧ (∀ v : ℕ, 1 ≤ v → v < w → demoSceneCount (0 - 7 * v) (0 + 7 * v) = 0)
      ∧ 1 = (w + 3) / 4
      ∧ 1 ≤ 3
      ∧ (14 : ℤ) - (-14) = 14 * w :=
  C4_window_search_first_success demoSceneCount 0 3 ⟨-14, 14, 1⟩ rfl

/-- C2: for every AGB response, dataQuality.gediFootprints equals 0 exactly
when inputMetrics.canopyHeight is null; in that case the harmonized image
omits the canopy-height band entirely and the AGB layer is the clamped
reduced 4-term regression, and when gediFootprints > 0 the AGB layer is the
clamped full 5-term regression including the CanopyHeight band. -/
theorem C2_reduced_model_invariant (g : GediOutcome) (s2 : S2CompositePixel)
    (s1 : S1CompositePixel) (gediVal : ℚ) (chStats : BandStatistics) :
    (gediFootprintsOf g = 0 ↔ canopyHeightMetricsOf g chStats = none)
      ∧ (gediFootprintsOf g = 0 →
          (harmonizeResolution s2 s1 (if g.fetchOk then some gediVal else none)
              (hasCanopyHeightOf g)).canopyHeight = none
            ∧ calculateAGB (hasCanopyHeightOf g)
                (harmonizeResolution s2 s1
                  (if g.fetchOk then some gediVal else none) (hasCanopyHeightOf g))
              = clampQ 0 500
                  (-150 + 200 * s2.ndvi + 150 * s2.evi + (-20) * s1.vh + 50 * s1.rvi))
      ∧ (0 < gediFootprintsOf g →
          (harmonizeResolution s2 s1 (if g.fetchOk then some gediVal else none)
              (hasCanopyHeightOf g)).canopyHeight = some gediVal
            ∧ calculateAGB (hasCanopyHeightOf g)
                (harmonizeResolution s2 s1
                  (if g.fetchOk then some gediVal else none) (hasCanopyHeightOf g))
              = clampQ 0 500
                  (-150 + 200 * s2.ndvi + 150 * s2.evi + (-20) * s1.vh + 50 * s1.rvi
                    + 15 * gediVal)) := by
  by_cases hch : hasCanopyHeightOf g = true
  · have hfd : g.fetchOk = true ∧ g.size ≠ 0 := by
      have h0 := hch
      simp [hasCanopyHeightOf] at h0
      exact h0
    obtain ⟨hf, hsize⟩ := hfd
    have hgf : gediFootprintsOf g = g.size := by simp [gediFootprintsOf, hch, hf]
    refine ⟨?_, ?_, ?_⟩
    · simp [hgf, canopyHeightMetricsOf, hch, hsize]
    · intro h0
      exact absurd (hgf ▸ h0) hsize
    · intro _
      constructor
      · simp [harmonizeResolution, hch, hf]
      · rw [calculateAGB]
        congr 1
        simp [calculateAGBPre, hch, harmonizeResolution, hf, REGRESSION_COEFFICIENTS]
  · have hch' : hasCanopyHeightOf g = false := by
      revert hch; cases hasCanopyHeightOf g <;> simp
    have hgf : gediFootprintsOf g = 0 := by simp [gediFootprintsOf, hch']
    refine ⟨?_, ?_, ?_⟩
    · simp [hgf, canopyHeightMetricsOf, hch']
    · intro _
      constructor
      · simp [harmonizeResolution, hch']
      · rw [calculateAGB]
        congr 1
        simp [calculateAGBPre, hch', harmonizeResolution, REGRESSION_COEFFICIENTS]
    · intro hpos
      rw [hgf] at hpos
      exact absurd hpos (lt_irrefl 0)

/-- C5 counterexample: for the empty region (an empty composite contributes
no unmasked pixel) every aggregate of the reduction is absent, yet the
statistics function reports the mean as the numeric value 0, so an
absent/undefined aggregate IS reported as the numeric statistic 0,
contradicting the claim. -/
theorem C5_counterexample :
    (reduceRegion ([] : List ℚ)).mean = none
      ∧ (calculateImageStatistics ([] : List ℚ)).mean = 0 :=
  ⟨rfl, rfl⟩

/-- C5 amended: missing/undefined pixel values and an empty composite are
excluded from the reduction (they contribute no pixels, and the aggregates of
an empty region are absent, not numeric zeros), but the statistics reader
then coerces every absent aggregate to the numeric statistic 0 through its
JavaScript zero fallback, while present aggregates are reported unchanged. -/
theorem C5_absent_aggregates_reported_as_zero (pixels : List ℚ) :
    (pixels = [] → reduceRegion pixels = ⟨none, none, none⟩)
      ∧ ((reduceRegion pixels).mean = none →
          (calculateImageStatistics pixels).mean = 0)
      ∧ ((reduceRegion pixels).min = none →
          (calculateImageStatistics pixels).min = 0)
      ∧ ((reduceRegion pixels).max = none →
          (calculateImageStatistics pixels).max = 0)
      ∧ (∀ m, (reduceRegion pixels).mean = some m →
          (calculateImageStatistics pixels).mean = m)
      ∧ (∀ m, (reduceRegion pixels).min = some m →
          (calculateImageStatistics pixels).min = m)
      ∧ (∀ m, (reduceRegion pixels).max = some m →
          (calculateImageStatistics pixels).max = m) := by
  refine ⟨fun h => by subst h; rfl, fun h => ?_, fun h => ?_, fun h => ?_,
    fun m h => ?_, fun m h => ?_, fun m h => ?_⟩
  all_goals simp [calculateImageStatistics, h]

/-- C9: for every land-cover classification response, the areaStatistics list
is sorted in descending order of areaHectares, and each entry is derived from
one reduction group with areaHectares the group's square-meter area divided
by 10000 and rounded to 2 decimal places and areaSquareMeters the same area
rounded to an integer; absent groups give the empty list. -/
theorem C9_area_statistics_sorted (classes : ℤ → Option String)
    (groups : List AreaGroup) :
    List.Sorted areaDescending (processAreaStatistics classes (some groups))
      ∧ (∀ e ∈ processAreaStatistics classes (some groups),
          ∃ g ∈ groups, e.classValue = g.classValue
            ∧ e.areaHectares = jsRound2 (g.sum / 10000)
            ∧ e.areaSquareMeters = jsRound g.sum)
      ∧ processAreaStatistics classes none = [] := by
  refine ⟨List.sorted_insertionSort areaDescending _, ?_, rfl⟩
  intro e he
  have hmem := (List.perm_insertionSort areaDescending _).mem_iff.mp he
  rcases List.mem_map.mp hmem with ⟨g, hg, rfl⟩
  exact ⟨g, hg, rfl, rfl, rfl⟩

end LandClassification
